import Mathlib

/-!
Shallow embedding of `src/identity.ts` from synthetism/identity-core.

The repository source holds two revisions of the `Identity` value object.
Revision 1 (namespace `V1`) assigns `props.publicKeyHex` into the stored
`privateKeyHex` field; revision 2 (namespace `V2`) stores the supplied
`privateKeyHex` and additionally carries a `unitDNA` record plus `version`,
`whoami`, `dna` accessors and `toDomain`.

Modelling conventions:
* JS strings are Lean `String`s; `!s` for a string is `s = ""`.
* A JS `Date` is `JsDate := Option Int` — `some t` a time value in
  milliseconds, `none` an Invalid Date (`NaN` time value).  A `Date`
  *object* is always truthy, even when invalid, which the embedding of
  `x || new Date()` / `x ? ... : ...` reflects.
* `new Date()` reads the clock once; `create` takes that single read as an
  explicit `now : Int` argument.  `new Date(d)` for a `Date` `d` copies the
  time value (Invalid stays Invalid), the identity on `JsDate`.
* `Record<string, unknown>` metadata is a string-keyed association list;
  the code never inspects it beyond defaulting an absent value to `{}`.
* The verifiable credential is an opaque type parameter `C`.
* `Result` from `@synet/patterns` is the two-variant success/failure
  container used by the factory.
* JS `||` defaulting on a string treats `""` as falsy (`jsOrDefault`);
  on an object (metadata, Date) only an absent value is falsy.
-/

namespace IdentityCore

/-- A JS `Date` value: `some t` = time value in ms, `none` = Invalid Date. -/
abbrev JsDate := Option Int

/-- `new Date(d)` where `d` is a `Date`: copies the time value. -/
def jsNewDateOf (d : JsDate) : JsDate := d

/-- Metadata: `Record<string, unknown>` as a string-keyed association list. -/
abbrev Metadata := List (String × String)

/-- `s || dflt` for JS strings: `""` is falsy. -/
def jsOrDefault (v : Option String) (dflt : String) : String :=
  match v with
  | some s => if s = "" then dflt else s
  | none => dflt

/-- The `Result` success/failure container from `@synet/patterns`. -/
inductive Result (α : Type) where
  | success : α → Result α
  | fail : String → Result α
deriving DecidableEq, Repr

/-- `Result.isSuccess`. -/
def Result.isSuccess {α : Type} : Result α → Bool
  | .success _ => true
  | .fail _ => false

/-- The failure message of a `Result`, `none` on success. -/
def Result.failureMessage {α : Type} : Result α → Option String
  | .success _ => none
  | .fail m => some m

/-- The argument record of `Identity.create` (both revisions take the same
shape); `Option` marks the fields TypeScript declares optional. -/
structure CreateInput (C : Type) where
  «alias» : String
  did : String
  kid : String
  publicKeyHex : String
  privateKeyHex : Option String
  credential : C
  provider : String
  metadata : Option Metadata
  createdAt : Option JsDate
  version : Option String
deriving DecidableEq, Repr

/-- The stored `IIdentity` / `IIdentityProps` record (field optionality
exactly as in the TypeScript interface). -/
structure IdentityProps (C : Type) where
  «alias» : String
  did : String
  kid : String
  publicKeyHex : String
  privateKeyHex : Option String
  provider : String
  credential : C
  metadata : Option Metadata
  createdAt : JsDate
  version : Option String
deriving DecidableEq, Repr

/-- `/^[a-zA-Z0-9_-]$/` as a character class. -/
def isAliasChar (c : Char) : Bool :=
  ('a' ≤ c && c ≤ 'z') || ('A' ≤ c && c ≤ 'Z') ||
  ('0' ≤ c && c ≤ '9') || c = '_' || c = '-'

/-- `/^[a-zA-Z0-9_-]+$/.test s`. -/
def aliasRegexTest (s : String) : Bool :=
  !s.isEmpty && s.data.all isAliasChar

/-- Failure message of the empty-alias check (source line 50 / 203). -/
def emptyAliasMsg : String := "Vault Alias  empty"

/-- Failure message of the character-set check (source line 56 / 209). -/
def badCharsMsg : String :=
  "Only alphanumeric characters, numbers, dashes, and underscores are allowed in vault ID"

/-- Failure message of the length check (source line 61 / 214). -/
def badLengthMsg : String := "Vault Alias must be between 2 and 32 characters"

/-! ## Revision 1 (first document in `identity.ts`) -/

namespace V1

/-- Revision 1 `Identity`: the `ValueObject` wrapper around its props. -/
structure Identity (C : Type) where
  props : IdentityProps C
deriving DecidableEq, Repr

/-- Revision 1 `Identity.create` (source lines 34–78).  `now` is the single
clock read `new Date()` performs when `createdAt` is absent. -/
def create {C : Type} (now : Int) (props : CreateInput C) : Result (Identity C) :=
  if props.«alias» = "" then
    .fail emptyAliasMsg
  else if !aliasRegexTest props.«alias» then
    .fail badCharsMsg
  else if props.«alias».length < 2 || props.«alias».length > 32 then
    .fail badLengthMsg
  else
    -- const createdAt = props.createdAt || new Date();
    -- a Date object is always truthy, even an Invalid Date
    let createdAt : JsDate := props.createdAt.getD (some now)
    .success ⟨{
      did := props.did
      «alias» := props.«alias»
      kid := props.kid
      publicKeyHex := props.publicKeyHex
      privateKeyHex := some props.publicKeyHex   -- source line 71
      provider := props.provider
      credential := props.credential
      metadata := some (props.metadata.getD [])
      createdAt := createdAt
      version := some (jsOrDefault props.version "1.0.0") }⟩

/-- `get privateKeyHex()`. -/
def Identity.privateKeyHex {C : Type} (i : Identity C) : Option String :=
  i.props.privateKeyHex

/-- The record returned by revision 1 `toJSON()` (also the shape of
revision 2's `toJSON()`): `metadata` defaulted, `version` passed through. -/
structure Snapshot (C : Type) where
  «alias» : String
  did : String
  kid : String
  publicKeyHex : String
  privateKeyHex : Option String
  provider : String
  credential : C
  metadata : Metadata
  createdAt : JsDate
  version : Option String
deriving DecidableEq, Repr

/-- Revision 1 `toJSON()` (source lines 113–126). -/
def Identity.toJSON {C : Type} (i : Identity C) : Snapshot C :=
  { «alias» := i.props.«alias»
    did := i.props.did
    kid := i.props.kid
    publicKeyHex := i.props.publicKeyHex
    privateKeyHex := i.props.privateKeyHex
    provider := i.props.provider
    credential := i.props.credential
    metadata := i.props.metadata.getD []
    createdAt := i.props.createdAt
    version := i.props.version }

end V1

/-! ## Revision 2 (second document in `identity.ts`) -/

namespace V2

/-- The `UnitSchema` value the revision-2 constructor builds (the object
literal also carries a `description` property, kept here as built at run
time); `children` makes the shape recursive. -/
inductive UnitSchema : Type where
  | mk (name : String) (description : String) (version : String)
       (capabilities : List String) (children : List UnitSchema)

/-- `UnitSchema.name` projection (used by `get whoami()`). -/
def UnitSchema.name : UnitSchema → String
  | .mk n _ _ _ _ => n

/-- Revision 2 `Identity`: the `ValueObject` props plus the private
`unitDNA` field set by the constructor. -/
structure Identity (C : Type) where
  props : IdentityProps C
  unitDNA : UnitSchema

/-- The private constructor (source lines 170–182): stores the props and
builds `unitDNA`. -/
def Identity.make {C : Type} (props : IdentityProps C) : Identity C :=
  { props := props
    unitDNA := .mk "Identity Unit"
      "I can create and manage decentralized identities. call .help() to see my capabilities."
      (jsOrDefault props.version "1.0.0")
      ["create", "update", "delete"]
      [] }

/-- Revision 2 `Identity.create` (source lines 187–231).  `now` is the
single clock read `new Date()` performs when `createdAt` is absent. -/
def create {C : Type} (now : Int) (props : CreateInput C) : Result (Identity C) :=
  if props.«alias» = "" then
    .fail emptyAliasMsg
  else if !aliasRegexTest props.«alias» then
    .fail badCharsMsg
  else if props.«alias».length < 2 || props.«alias».length > 32 then
    .fail badLengthMsg
  else
    -- const createdAt = props.createdAt ? new Date(props.createdAt) : new Date();
    -- a Date object is always truthy, even an Invalid Date
    let createdAt : JsDate :=
      match props.createdAt with
      | some d => jsNewDateOf d
      | none => some now
    .success (Identity.make {
      did := props.did
      «alias» := props.«alias»
      kid := props.kid
      publicKeyHex := props.publicKeyHex
      privateKeyHex := props.privateKeyHex   -- source line 224
      provider := props.provider
      credential := props.credential
      metadata := some (props.metadata.getD [])
      createdAt := createdAt
      version := some (jsOrDefault props.version "1.0.0") })

/-- `get whoami()`. -/
def Identity.whoami {C : Type} (i : Identity C) : String :=
  i.unitDNA.name

/-- `get dna()`. -/
def Identity.dna {C : Type} (i : Identity C) : UnitSchema :=
  i.unitDNA

/-- `get alias()`. -/
def Identity.«alias» {C : Type} (i : Identity C) : String :=
  i.props.«alias»

/-- `get did()`. -/
def Identity.did {C : Type} (i : Identity C) : String :=
  i.props.did

/-- `get kid()`. -/
def Identity.kid {C : Type} (i : Identity C) : String :=
  i.props.kid

/-- `get publicKeyHex()`. -/
def Identity.publicKeyHex {C : Type} (i : Identity C) : String :=
  i.props.publicKeyHex

/-- `get privateKeyHex()`. -/
def Identity.privateKeyHex {C : Type} (i : Identity C) : Option String :=
  i.props.privateKeyHex

/-- `get provider()`. -/
def Identity.provider {C : Type} (i : Identity C) : String :=
  i.props.provider

/-- `get credential()`. -/
def Identity.credential {C : Type} (i : Identity C) : C :=
  i.props.credential

/-- `get metadata()`: `this.props.metadata || {}`. -/
def Identity.metadata {C : Type} (i : Identity C) : Metadata :=
  i.props.metadata.getD []

/-- `get createdAt()`. -/
def Identity.createdAt {C : Type} (i : Identity C) : JsDate :=
  i.props.createdAt

/-- `get version()`: `this.props.version || '1.0.0'`. -/
def Identity.version {C : Type} (i : Identity C) : String :=
  jsOrDefault i.props.version "1.0.0"

/-- `toString()`: `JSON.stringify(this.props)`.  `JSON.stringify` is a
JS builtin, modelled as an arbitrary pure encoder of the props record. -/
def Identity.toString {C : Type} (stringify : IdentityProps C → String)
    (i : Identity C) : String :=
  stringify i.props

/-- Revision 2 `toJSON()` (source lines 279–292): same snapshot shape as
revision 1 (`metadata` defaulted, `version` passed through). -/
def Identity.toJSON {C : Type} (i : Identity C) : V1.Snapshot C :=
  { «alias» := i.props.«alias»
    did := i.props.did
    kid := i.props.kid
    publicKeyHex := i.props.publicKeyHex
    privateKeyHex := i.props.privateKeyHex
    provider := i.props.provider
    credential := i.props.credential
    metadata := i.props.metadata.getD []
    createdAt := i.props.createdAt
    version := i.props.version }

/-- The `IIdentity` record `toDomain()` returns: every optional field
already defaulted by the accessors it calls. -/
structure DomainRecord (C : Type) where
  «alias» : String
  did : String
  kid : String
  publicKeyHex : String
  privateKeyHex : Option String
  provider : String
  credential : C
  metadata : Metadata
  createdAt : JsDate
  version : String
deriving DecidableEq, Repr

/-- Revision 2 `toDomain()` (source lines 294–307), built from the
accessors; `this.createdAt || new Date()` keeps the stored `Date` because a
`Date` object is always truthy, and `this.version || '1.0.0'` re-defaults
the already-defaulted version string. -/
def Identity.toDomain {C : Type} (i : Identity C) : DomainRecord C :=
  { «alias» := i.«alias»
    did := i.did
    kid := i.kid
    publicKeyHex := i.publicKeyHex
    privateKeyHex := i.privateKeyHex
    provider := i.provider
    credential := i.credential
    metadata := i.metadata
    createdAt := i.createdAt
    version := if i.version = "" then "1.0.0" else i.version }

end V2

/-! ## Derived definitions used by the verification -/

/-- The alias condition under which `create` succeeds: passes the regex and
the length check.  (Regex success already implies non-emptiness.) -/
def validAlias (a : String) : Prop :=
  aliasRegexTest a = true ∧ 2 ≤ a.length ∧ a.length ≤ 32

instance validAlias.decidable (a : String) : Decidable (validAlias a) := by
  unfold validAlias; infer_instance

/-- The validation outcome as a function of the alias alone: the message of
the first failing check in source order, `none` when all pass. -/
def aliasFailure (a : String) : Option String :=
  if a = "" then some emptyAliasMsg
  else if !aliasRegexTest a then some badCharsMsg
  else if a.length < 2 || a.length > 32 then some badLengthMsg
  else none

/-- Reassemble a `create` argument record from a `toJSON` snapshot,
field for field. -/
def snapshotToInput {C : Type} (s : V1.Snapshot C) : CreateInput C :=
  { «alias» := s.«alias»
    did := s.did
    kid := s.kid
    publicKeyHex := s.publicKeyHex
    privateKeyHex := s.privateKeyHex
    credential := s.credential
    provider := s.provider
    metadata := some s.metadata
    createdAt := some s.createdAt
    version := s.version }

/-- The public methods of the revision-2 `Identity` class (accessors and
serializers). -/
inductive MethodCall where
  | getWhoami | getDna | getAlias | getDid | getKid | getPublicKeyHex
  | getPrivateKeyHex | getProvider | getCredential | getMetadata
  | getCreatedAt | getVersion | callToString | callToJSON | callToDomain
deriving DecidableEq, Repr

/-- The value a method call returns. -/
inductive Obs (C : Type) where
  | str : String → Obs C
  | optStr : Option String → Obs C
  | cred : C → Obs C
  | meta : Metadata → Obs C
  | date : JsDate → Obs C
  | schema : V2.UnitSchema → Obs C
  | snap : V1.Snapshot C → Obs C
  | domain : V2.DomainRecord C → Obs C

/-- One method call on a revision-2 instance, as a state transformer
returning the observed value and the post-call instance.  Each branch is the
translation of the corresponding method body, none of which contains an
assignment: every method only reads `this.props` / `this.unitDNA`. -/
def callMethod {C : Type} (stringify : IdentityProps C → String) :
    MethodCall → V2.Identity C → Obs C × V2.Identity C
  | .getWhoami, i => (.str i.whoami, i)
  | .getDna, i => (.schema i.dna, i)
  | .getAlias, i => (.str i.«alias», i)
  | .getDid, i => (.str i.did, i)
  | .getKid, i => (.str i.kid, i)
  | .getPublicKeyHex, i => (.str i.publicKeyHex, i)
  | .getPrivateKeyHex, i => (.optStr i.privateKeyHex, i)
  | .getProvider, i => (.str i.provider, i)
  | .getCredential, i => (.cred i.credential, i)
  | .getMetadata, i => (.meta i.metadata, i)
  | .getCreatedAt, i => (.date i.createdAt, i)
  | .getVersion, i => (.str i.version, i)
  | .callToString, i => (.str (i.toString stringify), i)
  | .callToJSON, i => (.snap i.toJSON, i)
  | .callToDomain, i => (.domain i.toDomain, i)

/-- Run a sequence of method calls, threading the instance state. -/
def runCalls {C : Type} (stringify : IdentityProps C → String) :
    List MethodCall → V2.Identity C → V2.Identity C
  | [], i => i
  | c :: cs, i => runCalls stringify cs (callMethod stringify c i).2

/-- A concrete valid `create` argument record (credential modelled by a
`Nat` payload) used to evaluate the theorems. -/
def sampleInput : CreateInput Nat :=
  { «alias» := "user-001"
    did := "did:key:z6Mk"
    kid := "key-1"
    publicKeyHex := "aabb"
    privateKeyHex := some "ccdd"
    credential := 7
    provider := "did:key"
    metadata := none
    createdAt := none
    version := none }

/-- A second concrete argument record, sharing no field value with
`sampleInput` except (after an alias override) the alias, and carrying a
different credential payload type. -/
def otherInput : CreateInput String :=
  { «alias» := "u"
    did := "did:web:example"
    kid := "other-key"
    publicKeyHex := "ff00"
    privateKeyHex := none
    credential := "vc-payload"
    provider := "did:web"
    metadata := some [("k", "v")]
    createdAt := some (some 99)
    version := some "2.0.0" }

/-- The instance `V2.create 0 sampleInput` evaluates to (all optional
inputs defaulted: empty metadata, clock read `0`, version `"1.0.0"`). -/
def sampleIdentity : V2.Identity Nat :=
  V2.Identity.make {
    did := "did:key:z6Mk"
    «alias» := "user-001"
    kid := "key-1"
    publicKeyHex := "aabb"
    privateKeyHex := some "ccdd"
    provider := "did:key"
    credential := 7
    metadata := some []
    createdAt := some 0
    version := some "1.0.0" }

/-! ## Helper lemmas -/

theorem aliasRegexTest_ne_empty {a : String} (h : aliasRegexTest a = true) :
    a ≠ "" := by
  intro he
  subst he
  exact absurd h (by decide)

theorem jsOrDefault_ne_of_ne {v : Option String} {d : String} (hd : d ≠ "") :
    jsOrDefault v d ≠ "" := by
  unfold jsOrDefault
  cases v with
  | none => exact hd
  | some s =>
    by_cases hs : s = "" <;> simp [hs, hd]

theorem jsOrDefault_idem (v : Option String) :
    jsOrDefault (some (jsOrDefault v "1.0.0")) "1.0.0" = jsOrDefault v "1.0.0" := by
  have h := jsOrDefault_ne_of_ne (v := v) (d := "1.0.0") (by decide)
  unfold jsOrDefault
  unfold jsOrDefault at h
  split at h <;> simp_all

theorem Result.isSuccess_eq_isNone {α : Type} (r : Result α) :
    r.isSuccess = r.failureMessage.isNone := by
  cases r <;> rfl

theorem V2.create_eq_success_v2 {C : Type} (now : Int) (inp : CreateInput C)
    (h : validAlias inp.«alias») :
    V2.create now inp = .success (V2.Identity.make {
      did := inp.did
      «alias» := inp.«alias»
      kid := inp.kid
      publicKeyHex := inp.publicKeyHex
      privateKeyHex := inp.privateKeyHex
      provider := inp.provider
      credential := inp.credential
      metadata := some (inp.metadata.getD [])
      createdAt := (match inp.createdAt with
        | some d => jsNewDateOf d
        | none => some now)
      version := some (jsOrDefault inp.version "1.0.0") }) := by
  obtain ⟨h1, h2, h3⟩ := h
  have hne : inp.«alias» ≠ "" := aliasRegexTest_ne_empty h1
  unfold V2.create
  rw [if_neg hne, if_neg (by simp [h1]), if_neg (by simp; omega)]

theorem V1.create_eq_success_v1 {C : Type} (now : Int) (inp : CreateInput C)
    (h : validAlias inp.«alias») :
    V1.create now inp = .success ⟨{
      did := inp.did
      «alias» := inp.«alias»
      kid := inp.kid
      publicKeyHex := inp.publicKeyHex
      privateKeyHex := some inp.publicKeyHex
      provider := inp.provider
      credential := inp.credential
      metadata := some (inp.metadata.getD [])
      createdAt := inp.createdAt.getD (some now)
      version := some (jsOrDefault inp.version "1.0.0") }⟩ := by
  obtain ⟨h1, h2, h3⟩ := h
  have hne : inp.«alias» ≠ "" := aliasRegexTest_ne_empty h1
  unfold V1.create
  rw [if_neg hne, if_neg (by simp [h1]), if_neg (by simp; omega)]

theorem V2.failureMessage_create_v2 {C : Type} (now : Int) (inp : CreateInput C) :
    (V2.create now inp).failureMessage = aliasFailure inp.«alias» := by
  unfold V2.create aliasFailure
  split_ifs <;> rfl

theorem V1.failureMessage_create_v1 {C : Type} (now : Int) (inp : CreateInput C) :
    (V1.create now inp).failureMessage = aliasFailure inp.«alias» := by
  unfold V1.create aliasFailure
  split_ifs <;> rfl

theorem aliasFailure_eq_none_iff (a : String) :
    aliasFailure a = none ↔ validAlias a := by
  unfold aliasFailure validAlias
  split_ifs with h1 h2 h3
  · simp only [reduceCtorEq, false_iff]
    rintro ⟨hr, -⟩
    exact aliasRegexTest_ne_empty hr h1
  · simp only [reduceCtorEq, false_iff]
    rintro ⟨hr, -⟩
    simp [hr] at h2
  · simp only [reduceCtorEq, false_iff]
    rintro ⟨-, hlo, hhi⟩
    simp only [Bool.or_eq_true, decide_eq_true_eq] at h3
    omega
  · simp only [true_iff]
    refine ⟨by simpa using h2, ?_, ?_⟩ <;>
      (simp only [Bool.or_eq_true, decide_eq_true_eq, not_or, not_lt] at h3; omega)

theorem V2.isSuccess_create_iff_v2 {C : Type} (now : Int) (inp : CreateInput C) :
    (V2.create now inp).isSuccess = true ↔ validAlias inp.«alias» := by
  rw [Result.isSuccess_eq_isNone, V2.failureMessage_create_v2, Option.isNone_iff_eq_none,
    aliasFailure_eq_none_iff]

theorem V1.isSuccess_create_iff_v1 {C : Type} (now : Int) (inp : CreateInput C) :
    (V1.create now inp).isSuccess = true ↔ validAlias inp.«alias» := by
  rw [Result.isSuccess_eq_isNone, V1.failureMessage_create_v1, Option.isNone_iff_eq_none,
    aliasFailure_eq_none_iff]

theorem aliasRegexTest_eq_false_iff (a : String) :
    aliasRegexTest a = false ↔ a = "" ∨ ∃ c ∈ a.data, isAliasChar c = false := by
  unfold aliasRegexTest
  rcases h : (!a.isEmpty && a.data.all isAliasChar) with _ | _
  · rw [Bool.and_eq_false_iff] at h
    simp only [true_iff]
    rcases h with h | h
    · left
      rcases hb : a.isEmpty with _ | _
      · rw [hb] at h
        exact absurd h (by decide)
      · exact (String.isEmpty_iff a).mp hb
    · right
      rw [List.all_eq_false] at h
      obtain ⟨c, hc, hf⟩ := h
      exact ⟨c, hc, by simpa using hf⟩
  · rw [Bool.and_eq_true] at h
    obtain ⟨he, hall⟩ := h
    simp only [reduceCtorEq, false_iff, not_or, not_exists]
    refine ⟨?_, ?_⟩
    · intro hempty
      rw [hempty] at he
      exact absurd he (by decide)
    · rintro c ⟨hc, hbad⟩
      rw [List.all_eq_true] at hall
      rw [hall c hc] at hbad
      exact absurd hbad (by decide)

theorem not_validAlias_iff (a : String) :
    ¬ validAlias a ↔
      (a = "" ∨ (∃ c ∈ a.data, isAliasChar c = false) ∨
        a.length < 2 ∨ 32 < a.length) := by
  unfold validAlias
  rw [not_and_or, not_and_or, Bool.not_eq_true, aliasRegexTest_eq_false_iff]
  simp only [not_le]
  constructor
  · rintro ((h | h) | h | h)
    · exact Or.inl h
    · exact Or.inr (Or.inl h)
    · exact Or.inr (Or.inr (Or.inl h))
    · exact Or.inr (Or.inr (Or.inr h))
  · rintro (h | h | h | h)
    · exact Or.inl (Or.inl h)
    · exact Or.inl (Or.inr h)
    · exact Or.inr (Or.inl h)
    · exact Or.inr (Or.inr h)

/-! ## Claims -/

/-- C1: the claim says the stored `privateKeyHex` (accessor and `toJSON`)
equals the supplied `privateKeyHex`, is absent when that input is omitted,
and is independent of `publicKeyHex`.  Revision 1 of the source instead
assigns `props.publicKeyHex` into the stored `privateKeyHex` (line 71) — the
defect the spec's design notes flag — while revision 2 (line 224) stores the
supplied value as the claim states.  This theorem evaluates both revisions
at a concrete input with `privateKeyHex = some "ccdd"`,
`publicKeyHex = "aabb"`, and at the same input with `privateKeyHex`
omitted. -/
theorem claim1_revision1_clobbers_privateKeyHex :
    sampleInput.privateKeyHex = some "ccdd" ∧
    sampleInput.publicKeyHex = "aabb" ∧
    (∃ i, V1.create 0 sampleInput = .success i ∧
      i.privateKeyHex = some "aabb" ∧ i.toJSON.privateKeyHex = some "aabb") ∧
    (∃ i, V1.create 0 { sampleInput with privateKeyHex := none } = .success i ∧
      i.privateKeyHex = some "aabb") ∧
    (∃ j, V2.create 0 sampleInput = .success j ∧
      j.privateKeyHex = some "ccdd" ∧ j.toJSON.privateKeyHex = some "ccdd") ∧
    (∃ j, V2.create 0 { sampleInput with privateKeyHex := none } = .success j ∧
      j.privateKeyHex = none) :=
  ⟨rfl, rfl, ⟨_, rfl, rfl, rfl⟩, ⟨_, rfl, rfl⟩, ⟨_, rfl, rfl, rfl⟩, ⟨_, rfl, rfl⟩⟩

/-- C2: for every input whose alias matches `^[A-Za-z0-9_-]+$` with length
in `[2, 32]` (required fields present by the shape of `CreateInput`),
revision-2 `create` succeeds and every accessor returns the corresponding
input value after defaulting (`metadata` to `{}`, `createdAt` to the single
clock read, `version` to `"1.0.0"`). -/
theorem claim2_accessors_equal_defaulted_input :
    ∀ (C : Type) (now : Int) (inp : CreateInput C),
      aliasRegexTest inp.«alias» = true →
      2 ≤ inp.«alias».length → inp.«alias».length ≤ 32 →
      ∃ i, V2.create now inp = .success i ∧
        i.«alias» = inp.«alias» ∧
        i.did = inp.did ∧
        i.kid = inp.kid ∧
        i.publicKeyHex = inp.publicKeyHex ∧
        i.privateKeyHex = inp.privateKeyHex ∧
        i.provider = inp.provider ∧
        i.credential = inp.credential ∧
        i.metadata = inp.metadata.getD [] ∧
        i.createdAt = (match inp.createdAt with
          | some d => jsNewDateOf d
          | none => some now) ∧
        i.version = jsOrDefault inp.version "1.0.0" := by
  intro C now inp h1 h2 h3
  exact ⟨_, V2.create_eq_success_v2 now inp ⟨h1, h2, h3⟩,
    rfl, rfl, rfl, rfl, rfl, rfl, rfl, rfl, rfl, jsOrDefault_idem inp.version⟩

/-- Witness for C2 at `sampleInput`. -/
theorem claim2_witness :
    (aliasRegexTest sampleInput.«alias» = true ∧
      2 ≤ sampleInput.«alias».length ∧ sampleInput.«alias».length ≤ 32) ∧
    ∃ i, V2.create 0 sampleInput = .success i ∧
      i.«alias» = sampleInput.«alias» ∧
      i.did = sampleInput.did ∧
      i.kid = sampleInput.kid ∧
      i.publicKeyHex = sampleInput.publicKeyHex ∧
      i.privateKeyHex = sampleInput.privateKeyHex ∧
      i.provider = sampleInput.provider ∧
      i.credential = sampleInput.credential ∧
      i.metadata = sampleInput.metadata.getD [] ∧
      i.createdAt = (match sampleInput.createdAt with
        | some d => jsNewDateOf d
        | none => some 0) ∧
      i.version = jsOrDefault sampleInput.version "1.0.0" :=
  ⟨⟨by decide, by decide, by decide⟩,
   claim2_accessors_equal_defaulted_input Nat 0 sampleInput
     (by decide) (by decide) (by decide)⟩

/-- C3: `create` fails exactly when the alias is empty, contains a
character outside `[A-Za-z0-9_-]`, or has length outside `[2, 32]`; for any
other alias it succeeds regardless of the remaining fields — in both
revisions, the alias checks are the only cause of validation failure. -/
theorem claim3_alias_checks_only_failure_cause :
    ∀ (C : Type) (now : Int) (inp : CreateInput C),
      ((V1.create now inp).isSuccess = false ↔
        (inp.«alias» = "" ∨ (∃ c ∈ inp.«alias».data, isAliasChar c = false) ∨
          inp.«alias».length < 2 ∨ 32 < inp.«alias».length)) ∧
      ((V2.create now inp).isSuccess = false ↔
        (inp.«alias» = "" ∨ (∃ c ∈ inp.«alias».data, isAliasChar c = false) ∨
          inp.«alias».length < 2 ∨ 32 < inp.«alias».length)) := by
  intro C now inp
  constructor
  · rw [← Bool.not_eq_true, V1.isSuccess_create_iff_v1, not_validAlias_iff]
  · rw [← Bool.not_eq_true, V2.isSuccess_create_iff_v2, not_validAlias_iff]

/-- C4: both revisions apply the checks in the fixed order
empty-alias, disallowed-characters, length-out-of-bounds, short-circuiting
on the first failure, and the three failure messages are pairwise distinct
(in particular the empty-alias message differs from the other two). -/
theorem claim4_validation_order_and_distinct_messages :
    (∀ (C : Type) (now : Int) (inp : CreateInput C), inp.«alias» = "" →
      V1.create now inp = .fail emptyAliasMsg ∧
      V2.create now inp = .fail emptyAliasMsg) ∧
    (∀ (C : Type) (now : Int) (inp : CreateInput C),
      inp.«alias» ≠ "" → aliasRegexTest inp.«alias» = false →
      V1.create now inp = .fail badCharsMsg ∧
      V2.create now inp = .fail badCharsMsg) ∧
    (∀ (C : Type) (now : Int) (inp : CreateInput C),
      aliasRegexTest inp.«alias» = true →
      (inp.«alias».length < 2 ∨ 32 < inp.«alias».length) →
      V1.create now inp = .fail badLengthMsg ∧
      V2.create now inp = .fail badLengthMsg) ∧
    emptyAliasMsg ≠ badCharsMsg ∧ emptyAliasMsg ≠ badLengthMsg ∧
    badCharsMsg ≠ badLengthMsg := by
  refine ⟨?_, ?_, ?_, by decide, by decide, by decide⟩
  · intro C now inp he
    constructor
    · unfold V1.create
      rw [if_pos he]
    · unfold V2.create
      rw [if_pos he]
  · intro C now inp hne hf
    constructor
    · unfold V1.create
      rw [if_neg hne, if_pos (by simp [hf])]
    · unfold V2.create
      rw [if_neg hne, if_pos (by simp [hf])]
  · intro C now inp h1 hlen
    have hne : inp.«alias» ≠ "" := aliasRegexTest_ne_empty h1
    constructor
    · unfold V1.create
      rw [if_neg hne, if_neg (by simp [h1]),
        if_pos (by simp only [Bool.or_eq_true, decide_eq_true_eq]; omega)]
    · unfold V2.create
      rw [if_neg hne, if_neg (by simp [h1]),
        if_pos (by simp only [Bool.or_eq_true, decide_eq_true_eq]; omega)]

/-- Witness for C4: the empty alias, the one-character alias `"!"` (both a
disallowed character and too short — the character message wins, showing the
check order), and the too-short alias `"a"`. -/
theorem claim4_witness :
    V2.create 0 ({ sampleInput with «alias» := "" } : CreateInput Nat) =
      .fail emptyAliasMsg ∧
    V2.create 0 ({ sampleInput with «alias» := "!" } : CreateInput Nat) =
      .fail badCharsMsg ∧
    V2.create 0 ({ sampleInput with «alias» := "a" } : CreateInput Nat) =
      .fail badLengthMsg :=
  ⟨(claim4_validation_order_and_distinct_messages.1 Nat 0 _ rfl).2,
   ((claim4_validation_order_and_distinct_messages.2.1 Nat 0 _
      (by decide) (by decide))).2,
   ((claim4_validation_order_and_distinct_messages.2.2.1 Nat 0 _
      (by decide) (by decide))).2⟩

/-- C5: on every successful revision-2 `create` call, an omitted `metadata`
yields the empty mapping, an omitted `version` yields `"1.0.0"` (stored
field and accessor), an omitted `createdAt` yields the single clock read
`now` performed during construction, and a supplied `createdAt` is returned
by the accessor value-equal after the `new Date(...)` coercion. -/
theorem claim5_defaulting :
    ∀ (C : Type) (now : Int) (inp : CreateInput C),
      aliasRegexTest inp.«alias» = true →
      2 ≤ inp.«alias».length → inp.«alias».length ≤ 32 →
      ∃ i, V2.create now inp = .success i ∧
        (inp.metadata = none → i.metadata = []) ∧
        (inp.version = none →
          i.props.version = some "1.0.0" ∧ i.version = "1.0.0") ∧
        (inp.createdAt = none → i.createdAt = some now) ∧
        (∀ d, inp.createdAt = some d → i.createdAt = jsNewDateOf d) := by
  intro C now inp h1 h2 h3
  refine ⟨_, V2.create_eq_success_v2 now inp ⟨h1, h2, h3⟩, ?_, ?_, ?_, ?_⟩
  · intro hm
    rw [hm]
    rfl
  · intro hv
    rw [hv]
    exact ⟨rfl, rfl⟩
  · intro hc
    rw [hc]
    rfl
  · intro d hd
    rw [hd]
    rfl

/-- Witness for C5 at `sampleInput` (all optional fields omitted) with
clock read `5`. -/
theorem claim5_witness :
    (aliasRegexTest sampleInput.«alias» = true ∧
      2 ≤ sampleInput.«alias».length ∧ sampleInput.«alias».length ≤ 32) ∧
    ∃ i, V2.create 5 sampleInput = .success i ∧
      (sampleInput.metadata = none → i.metadata = []) ∧
      (sampleInput.version = none →
        i.props.version = some "1.0.0" ∧ i.version = "1.0.0") ∧
      (sampleInput.createdAt = none → i.createdAt = some 5) ∧
      (∀ d, sampleInput.createdAt = some d → i.createdAt = jsNewDateOf d) :=
  ⟨⟨by decide, by decide, by decide⟩,
   claim5_defaulting Nat 5 sampleInput (by decide) (by decide) (by decide)⟩

/-- C6: round-trip law for revision 2 — feeding a successful instance's
`toJSON` snapshot back into `create` (any later clock read) succeeds and
the reconstructed instance's snapshot equals the original field for field.
In this model the timestamp coercion `new Date(d)` is value-preserving, so
the equality is exact rather than up to re-encoding. -/
theorem claim6_snapshot_roundtrip :
    ∀ (C : Type) (now now2 : Int) (inp : CreateInput C) (i : V2.Identity C),
      V2.create now inp = .success i →
      ∃ j, V2.create now2 (snapshotToInput i.toJSON) = .success j ∧
        j.toJSON = i.toJSON := by
  intro C now now2 inp i h
  have hv : validAlias inp.«alias» :=
    (V2.isSuccess_create_iff_v2 now inp).mp (by rw [h]; rfl)
  rw [V2.create_eq_success_v2 now inp hv] at h
  injection h with h
  subst h
  refine ⟨_, V2.create_eq_success_v2 now2 _ hv, ?_⟩
  simp only [V2.Identity.toJSON, V2.Identity.make, snapshotToInput,
    Option.getD_some, V1.Snapshot.mk.injEq, jsOrDefault_idem, jsNewDateOf,
    and_true, true_and]

/-- Witness for C6: the instance created from `sampleInput` at clock `0`,
re-created at clock `1`. -/
theorem claim6_witness :
    V2.create 0 sampleInput = .success sampleIdentity ∧
    ∃ j, V2.create 1 (snapshotToInput sampleIdentity.toJSON) = .success j ∧
      j.toJSON = sampleIdentity.toJSON :=
  ⟨rfl, claim6_snapshot_roundtrip Nat 0 1 sampleInput sampleIdentity rfl⟩

/-- C7 counterexample: the claim says a malformed `createdAt` (one that
cannot be coerced to a valid timestamp — here an Invalid Date, time value
`NaN`) makes `create` return failure and never a success wrapping an
invalid timestamp.  Revision 2 performs no timestamp validation:
`new Date(props.createdAt)` keeps the invalid value (a `Date` object is
truthy) and `create` returns success wrapping an instance whose
`createdAt` is invalid. -/
theorem claim7_counterexample :
    ∃ i, V2.create 0
        ({ sampleInput with createdAt := some none } : CreateInput Nat) =
        .success i ∧
      i.createdAt = none :=
  ⟨_, rfl, rfl⟩

/-- C7 amended: `create` applies no validation to `createdAt`; with a valid
alias and a malformed (Invalid Date) `createdAt`, it returns a success
result wrapping an instance whose `createdAt` is that invalid timestamp. -/
theorem claim7_amended_no_timestamp_validation :
    ∀ (C : Type) (now : Int) (inp : CreateInput C),
      validAlias inp.«alias» →
      inp.createdAt = some none →
      ∃ i, V2.create now inp = .success i ∧ i.createdAt = none := by
  intro C now inp hv hc
  refine ⟨_, V2.create_eq_success_v2 now inp hv, ?_⟩
  rw [hc]
  rfl

/-- Witness for the amended C7 at `sampleInput` with an Invalid-Date
`createdAt`. -/
theorem claim7_witness :
    (validAlias
        ({ sampleInput with createdAt := some none } : CreateInput Nat).«alias» ∧
      ({ sampleInput with createdAt := some none } : CreateInput Nat).createdAt =
        some none) ∧
    ∃ i, V2.create 3
        ({ sampleInput with createdAt := some none } : CreateInput Nat) =
        .success i ∧
      i.createdAt = none :=
  ⟨⟨by decide, rfl⟩,
   claim7_amended_no_timestamp_validation Nat 3 _ (by decide) rfl⟩

/-- C8: for every input, both revisions of `create` return (the Lean
functions are total) either a success wrapping a fully constructed
`Identity` or a failure carrying one of the three non-empty human-readable
messages; the two-variant `Result` container means a failure carries no
`Identity` value at all, so no partial object escapes, and no exception
path exists. -/
theorem claim8_always_returns_result :
    ∀ (C : Type) (now : Int) (inp : CreateInput C),
      ((∃ i, V1.create now inp = .success i) ∨
        (∃ m, V1.create now inp = .fail m ∧
          (m = emptyAliasMsg ∨ m = badCharsMsg ∨ m = badLengthMsg) ∧
          m ≠ "")) ∧
      ((∃ i, V2.create now inp = .success i) ∨
        (∃ m, V2.create now inp = .fail m ∧
          (m = emptyAliasMsg ∨ m = badCharsMsg ∨ m = badLengthMsg) ∧
          m ≠ "")) := by
  intro C now inp
  constructor
  · unfold V1.create
    split_ifs with h1 h2 h3
    · exact Or.inr ⟨_, rfl, Or.inl rfl, by decide⟩
    · exact Or.inr ⟨_, rfl, Or.inr (Or.inl rfl), by decide⟩
    · exact Or.inr ⟨_, rfl, Or.inr (Or.inr rfl), by decide⟩
    · exact Or.inl ⟨_, rfl⟩
  · unfold V2.create
    split_ifs with h1 h2 h3
    · exact Or.inr ⟨_, rfl, Or.inl rfl, by decide⟩
    · exact Or.inr ⟨_, rfl, Or.inr (Or.inl rfl), by decide⟩
    · exact Or.inr ⟨_, rfl, Or.inr (Or.inr rfl), by decide⟩
    · exact Or.inl ⟨_, rfl⟩

theorem callMethod_preserves {C : Type} (stringify : IdentityProps C → String)
    (c : MethodCall) (i : V2.Identity C) :
    (callMethod stringify c i).2 = i := by
  cases c <;> rfl

/-- C9: running any sequence of accessor/serialization method calls on a
revision-2 instance leaves the whole instance state (props and `unitDNA`)
unchanged — each method body only reads `this` — and a second `toJSON`
call, made on the state left by a first one, returns an equal snapshot. -/
theorem claim9_methods_never_mutate :
    ∀ (C : Type) (stringify : IdentityProps C → String)
      (calls : List MethodCall) (i : V2.Identity C),
      runCalls stringify calls i = i ∧
      (callMethod stringify .callToJSON
          ((callMethod stringify .callToJSON i).2)).1 =
        (callMethod stringify .callToJSON i).1 := by
  intro C stringify calls i
  refine ⟨?_, rfl⟩
  induction calls with
  | nil => rfl
  | cons c cs ih =>
    simp only [runCalls]
    rw [callMethod_preserves]
    exact ih

/-- C10: validation noninterference — for any two `create` inputs with the
same alias (all other fields, the clock read, and even the credential
payload type arbitrary), both calls succeed together or fail together with
identical failure messages, in both revisions. -/
theorem claim10_validation_depends_only_on_alias :
    ∀ (C D : Type) (now1 now2 : Int)
      (in1 : CreateInput C) (in2 : CreateInput D),
      in1.«alias» = in2.«alias» →
      (V1.create now1 in1).isSuccess = (V1.create now2 in2).isSuccess ∧
      (V1.create now1 in1).failureMessage =
        (V1.create now2 in2).failureMessage ∧
      (V2.create now1 in1).isSuccess = (V2.create now2 in2).isSuccess ∧
      (V2.create now1 in1).failureMessage =
        (V2.create now2 in2).failureMessage := by
  intro C D now1 now2 in1 in2 h
  have h1 : (V1.create now1 in1).failureMessage =
      (V1.create now2 in2).failureMessage := by
    rw [V1.failureMessage_create_v1, V1.failureMessage_create_v1, h]
  have h2 : (V2.create now1 in1).failureMessage =
      (V2.create now2 in2).failureMessage := by
    rw [V2.failureMessage_create_v2, V2.failureMessage_create_v2, h]
  refine ⟨?_, h1, ?_, h2⟩
  · rw [Result.isSuccess_eq_isNone, Result.isSuccess_eq_isNone, h1]
  · rw [Result.isSuccess_eq_isNone, Result.isSuccess_eq_isNone, h2]

/-- Witness for C10: two inputs sharing the invalid alias `"u"` but
differing in every other field and in credential payload type. -/
theorem claim10_witness :
    (({ sampleInput with «alias» := "u" } : CreateInput Nat).«alias» =
      otherInput.«alias») ∧
    (V1.create 3 ({ sampleInput with «alias» := "u" } : CreateInput Nat)).isSuccess =
      (V1.create 4 otherInput).isSuccess ∧
    (V1.create 3 ({ sampleInput with «alias» := "u" } : CreateInput Nat)).failureMessage =
      (V1.create 4 otherInput).failureMessage ∧
    (V2.create 3 ({ sampleInput with «alias» := "u" } : CreateInput Nat)).isSuccess =
      (V2.create 4 otherInput).isSuccess ∧
    (V2.create 3 ({ sampleInput with «alias» := "u" } : CreateInput Nat)).failureMessage =
      (V2.create 4 otherInput).failureMessage :=
  ⟨rfl, claim10_validation_depends_only_on_alias Nat String 3 4 _ _ rfl⟩

end IdentityCore
